import Mathlib

/-!
Verification development for the Reflux middleware transport
(`src/middleware.ts`).  The TypeScript source is shallowly embedded:
strings are `List Char` (JS strings; one `Char` per UTF-16 unit of the
modelled texts), response bodies are an inductive over the body shapes the
code dispatches on, streams are their remaining chunk lists, and the
middleware chain is an explicit fold over handler "scripts" (interaction
trees recording the calls a JS handler makes to its `next` continuation,
whether it throws, and what it returns).  Platform primitives used by the
source (`TextDecoder`, `ReadableStream.tee`, `new RegExp`, `new Function`)
are modelled at the boundary; each model is documented at its definition.
-/

namespace Reflux

/-- JS strings, modelled as lists of characters. -/
abbrev Str := List Char

/-- JS `hay.includes(needle)` (substring containment). -/
def strIncludes : Str → Str → Bool
  | [], needle => needle.isEmpty
  | c :: t, needle => List.isPrefixOf needle (c :: t) || strIncludes t needle

/-- JS `hay.replace(pat, rep)` with a string pattern: replaces only the
first occurrence; if the pattern does not occur, the string is returned
unchanged.  An empty pattern matches at position 0. -/
def replaceFirst (pat rep : Str) : Str → Str
  | [] => if pat.isEmpty then rep else []
  | c :: t =>
    if List.isPrefixOf pat (c :: t) then rep ++ (c :: t).drop pat.length
    else c :: replaceFirst pat rep t

/-- ASCII lowercasing, the modelled fragment of JS case-insensitive
matching (flag `i`); the modelled scope patterns and hosts are ASCII. -/
def lowerStr (s : Str) : Str := s.map Char.toLower

/-- `"</head>"`, the injection anchor checked by the plugin handler. -/
def headAnchor : Str := ("</head>").data

/-- `"text/html"`, the HTML content-type marker. -/
def htmlMarker : Str := ("text/html").data

/-- `"content-type"`, the header key the plugin handler reads.  Header
keys are compared exactly, as JS object property lookup does. -/
def contentTypeKey : Str := ("content-type").data

/-- `"content-length"`, the header key rewritten on a body rewrite. -/
def contentLengthKey : Str := ("content-length").data

/-- Header mappings (`Record<string, string>`): insertion-ordered
association lists with unique keys, exact-key lookup, as JS objects. -/
abbrev Headers := List (Str × Str)

/-- JS object property read `m[k]` (first binding; keys are unique). -/
def assocGet {A : Type} : List (Str × A) → Str → Option A
  | [], _ => none
  | kv :: t, k => if kv.1 = k then some kv.2 else assocGet t k

/-- JS `k in m` / `Map.has`. -/
def assocHas {A : Type} (m : List (Str × A)) (k : Str) : Bool :=
  m.any (fun kv => kv.1 = k)

/-- JS property write / `Map.set`: overwrite in place if the key exists
(insertion order kept), append otherwise. -/
def assocSet {A : Type} (m : List (Str × A)) (k : Str) (v : A) : List (Str × A) :=
  if assocHas m k then m.map (fun kv => if kv.1 = k then (k, v) else kv)
  else m ++ [(k, v)]

/-- JS `delete` / `Map.delete`. -/
def assocDelete {A : Type} (m : List (Str × A)) (k : Str) : List (Str × A) :=
  m.filter (fun kv => !(kv.1 = k : Bool))

/-- `{...headers, "content-length": v}` and friends. -/
def setHeader (hs : Headers) (k v : Str) : Headers := assocSet hs k v

/-- `headers[k]`. -/
def getHeader (hs : Headers) (k : Str) : Option Str := assocGet hs k

/-- `response.headers["content-type"]?.includes("text/html")` coerced to
boolean: an absent header is `undefined`, hence falsy. -/
def contentTypeHasHtml (hs : Headers) : Bool :=
  match getHeader hs contentTypeKey with
  | some v => strIncludes v htmlMarker
  | none => false

/-- An open `ReadableStream`: the list of byte chunks it will yield.
Bytes are modelled at the character level (the UTF-8 `TextDecoder` is the
identity on this representation). -/
structure JsStream where
  chunks : List Str
deriving DecidableEq

/-- The byte sequence a stream yields when fully drained. -/
def streamBytes (st : JsStream) : Str := st.chunks.flatten

/-- `MiddlewareTransport.streamToString`: drain every chunk, concatenate,
decode (UTF-8 decoding is the identity on the modelled characters). -/
def streamToString (stream : JsStream) : Str := stream.chunks.flatten

/-- `ReadableStream.prototype.tee()`: two fresh independent streams, each
yielding exactly the chunks of the source. -/
def tee (st : JsStream) : JsStream × JsStream := (⟨st.chunks⟩, ⟨st.chunks⟩)

/-- The body shapes `bodyToString` dispatches on (`TransferrableResponse`
allows `string | Blob | ArrayBuffer | ReadableStream | null`).  A `Blob`
is modelled by the text `blob.text()` yields, an `ArrayBuffer` by the text
its UTF-8 decoding yields. -/
inductive JsBody where
  | null
  | str (s : Str)
  | blob (text : Str)
  | buffer (text : Str)
  | stream (st : JsStream)
deriving DecidableEq

/-- JS truthiness of a body value: `null` and `""` are falsy; `Blob`,
`ArrayBuffer` and `ReadableStream` objects are always truthy. -/
def JsBody.truthy : JsBody → Bool
  | .null => false
  | .str s => !s.isEmpty
  | .blob _ => true
  | .buffer _ => true
  | .stream _ => true

/-- `MiddlewareTransport.bodyToString`.  Note the first line of the
source is `if (!body) return null`, so the empty string (falsy in JS) is
reported as an absent body. -/
def bodyToString : JsBody → Option Str
  | .null => none
  | .str s => if s.isEmpty then none else some s
  | .blob text => some text
  | .buffer text => some text
  | .stream st => some (streamToString st)

/-- A target URL as the site matcher consumes it. -/
structure URLm where
  hostname : Str
  href : Str
deriving DecidableEq

/-- `"*"`, the universal scope pattern. -/
def starStr : Str := ("*").data

/-- `site.replace(/\*/g, '.*')`. -/
def starPattern (site : Str) : Str :=
  site.flatMap (fun c => if c = '*' then ['.', '*'] else [c])

/-- Model of ECMAScript `new RegExp(pattern, "i")` compilation for the
patterns the matcher builds: compilation raises a `SyntaxError` when the
pattern contains an unmatched group delimiter `(` or `)`.  (Other
ECMAScript error classes — unterminated character classes, dangling
quantifiers — are not modelled; no theorem below depends on a pattern in
that territory.) -/
def parenScan : Str → Nat → Bool
  | [], d => d = 0
  | c :: t, d =>
    if c = '(' then parenScan t (d + 1)
    else if c = ')' then match d with
      | 0 => false
      | d' + 1 => parenScan t d'
    else parenScan t d

/-- Whether `new RegExp(pattern, "i")` compiles in the model. -/
def regexCompileOk (pattern : Str) : Bool := parenScan pattern 0

/-- Remainder of `s` after the first occurrence of `seg`, `none` if `seg`
does not occur. -/
def dropAfterFirst (seg : Str) : Str → Option Str
  | [] => if seg.isEmpty then some [] else none
  | c :: t =>
    if List.isPrefixOf seg (c :: t) then some ((c :: t).drop seg.length)
    else dropAfterFirst seg t

/-- Unanchored matching of the regex `seg₀.*seg₁.*…` against `s`: the
literal segments occur in order. -/
def orderedSegs : List Str → Str → Bool
  | [], _ => true
  | seg :: rest, s =>
    match dropAfterFirst seg s with
    | some s' => orderedSegs rest s'
    | none => false

/-- Split a compiled pattern at each `.*` (the wildcard expansions). -/
def splitOnDotStar : Str → List Str
  | [] => [[]]
  | '.' :: '*' :: rest => [] :: splitOnDotStar rest
  | c :: rest =>
    match splitOnDotStar rest with
    | [] => [[c]]
    | seg :: segs => (c :: seg) :: segs

/-- Model of `new RegExp(pattern, "i").test(s)` for the patterns built
from scope patterns whose only metacharacter material is the inserted
`.*` pairs: case-insensitive unanchored ordered containment of the
literal segments. -/
def regexTestI (pattern : Str) (s : Str) : Bool :=
  orderedSegs ((splitOnDotStar pattern).map lowerStr) (lowerStr s)

/-- Regex metacharacters other than `*` (which the matcher replaces
before compiling).  A scope pattern avoiding all of these compiles and
has exact glob semantics in the model. -/
def regexSpecials : Str := ("()[]\x7b\x7d+?.^$|\\").data

/-- A scope pattern whose characters are either the wildcard or
regex-literal characters. -/
def sitePlain (site : Str) : Bool :=
  site.all (fun c => c = '*' || !(regexSpecials.contains c))

/-- One step of `plugin.sites.some(site => …)`.  A wildcard-containing
pattern is compiled to a regex (which can raise) and tested against the
hostname and the full address; a plain pattern is a substring test. -/
def siteCheck (u : URLm) (site : Str) : Except Unit Bool :=
  if site.contains '*' then
    let pattern := starPattern site
    if regexCompileOk pattern then
      .ok (regexTestI pattern u.hostname || regexTestI pattern u.href)
    else .error ()
  else .ok (strIncludes u.hostname site || strIncludes u.href site)

/-- JS `Array.prototype.some` with a fallible predicate: left-to-right,
stops at the first `true`, and an exception raised by the predicate
propagates. -/
def someJs (f : Str → Except Unit Bool) : List Str → Except Unit Bool
  | [] => .ok false
  | s :: rest =>
    match f s with
    | .error e => .error e
    | .ok true => .ok true
    | .ok false => someJs f rest

/-- `MiddlewareTransport.shouldPluginRunOnSite`.  `.error ()` marks the
`SyntaxError` escaping from `new RegExp`. -/
def shouldPluginRunOnSite (sites : List Str) (u : URLm) : Except Unit Bool :=
  if sites.contains starStr then .ok true
  else someJs (siteCheck u) sites

/-- The per-pattern boolean `siteCheck` yields when it does not raise
(used to state the total-behaviour theorem). -/
def siteCheckOk (u : URLm) (site : Str) : Bool :=
  if site.contains '*' then
    regexTestI (starPattern site) u.hostname || regexTestI (starPattern site) u.href
  else strIncludes u.hostname site || strIncludes u.href site

/-- Outcome of invoking the compiled delivery-time fragment
(`new Function('body','url','headers', code)(...)`): it can throw, return
a string, or return any non-string value (including `undefined`). -/
inductive JsResult where
  | threw
  | retString (s : Str)
  | retOther

/-- A `RefluxPlugin` together with the semantics of its source text.
The source stores one text blob; `executePlugin` splits it with the
regex `/\/\*\s*@browser\s*\*\/([\s\S]*?)\/\*\s*@\/browser\s*\*\//` and
compiles the remainder with `new Function`.  Both the regex match and the
JS evaluator are platform primitives, modelled by pre-split fields:
`browserCode` is the trimmed content of the matched `@browser` region (if
the markers matched), `hasServerCode` records whether the remaining
source is nonempty after trimming, and `run` gives the behaviour of the
compiled delivery-time fragment (a `new Function` compile error is folded
into `JsResult.threw`). -/
structure PluginModel where
  name : Str
  sites : List Str
  browserCode : Option Str
  hasServerCode : Bool
  run : Str → Str → Headers → JsResult

/-- The `<script>` wrapper built around the content-execution fragment
before injection (exact template text of the source). -/
def scriptTag (url name code : Str) : Str :=
  ("<script>\n        (function() \x7b\n          const url = \"").data ++ url ++
  ("\";\n          const pluginName = \"").data ++ name ++
  ("\";\n          ").data ++ code ++
  ("\n        \x7d)();\n      </script>").data

/-- `MiddlewareTransport.executePlugin`: inject the wrapped
content-execution fragment before the first `</head>` (a no-op when the
anchor is absent), then run the delivery-time fragment; a string return
becomes the result, anything else (including a caught throw) leaves the
injection-modified body. -/
def executePlugin (p : PluginModel) (body url : Str) (headers : Headers) : Str :=
  let modifiedBody :=
    match p.browserCode with
    | some code => replaceFirst headAnchor (scriptTag url p.name code ++ headAnchor) body
    | none => body
  if p.hasServerCode then
    match p.run modifiedBody url headers with
    | .retString s => s
    | .retOther => modifiedBody
    | .threw => modifiedBody
  else modifiedBody

/-- `RequestContext`: the request as the pipeline threads it.  The
cancellation signal is an opaque token. -/
structure RequestContext where
  remote : URLm
  method : Str
  body : JsBody
  headers : Headers
  signal : Option Nat
deriving DecidableEq

/-- `Partial<RequestContext>`: the patch a request handler may pass to
its continuation; present fields override by object spread. -/
structure ReqPatch where
  remote : Option URLm := none
  method : Option Str := none
  body : Option JsBody := none
  headers : Option Headers := none
  signal : Option (Option Nat) := none

/-- `{...currentContext, ...modifiedReq}`. -/
def mergeReqPatch (cur : RequestContext) (p : ReqPatch) : RequestContext :=
  { remote := p.remote.getD cur.remote
    method := p.method.getD cur.method
    body := p.body.getD cur.body
    headers := p.headers.getD cur.headers
    signal := p.signal.getD cur.signal }

/-- `TransferrableResponse`. -/
structure TransferResp where
  body : JsBody
  headers : Headers
  status : Nat
  statusText : Str
deriving DecidableEq

/-- `Partial<TransferrableResponse>`. -/
structure RespPatch where
  body : Option JsBody := none
  headers : Option Headers := none
  status : Option Nat := none
  statusText : Option Str := none

/-- The response-side continuation merge: each field goes through JS
`modified.field || current.field`, so an absent *or falsy* field (a
`null`/empty body, status `0`, empty status text) falls back to the
current response's field; a headers object is always truthy. -/
def mergeRespPatch (cur : TransferResp) (p : RespPatch) : TransferResp :=
  { body := match p.body with
      | some b => if b.truthy then b else cur.body
      | none => cur.body
    headers := p.headers.getD cur.headers
    status := match p.status with
      | some n => if n = 0 then cur.status else n
      | none => cur.status
    statusText := match p.statusText with
      | some s => if s.isEmpty then cur.statusText else s
      | none => cur.statusText }

/-- The merge applied to a response handler's returned value
(`result.field || currentResponse.field` for each field). -/
def mergeRespResult (cur r : TransferResp) : TransferResp :=
  { body := if r.body.truthy then r.body else cur.body
    headers := r.headers
    status := if r.status = 0 then cur.status else r.status
    statusText := if r.statusText.isEmpty then cur.statusText else r.statusText }

/-- `ResponseContext`: back-reference to the finalized request. -/
structure ResponseContext where
  request : RequestContext

/-- Interaction tree of a request handler: the sequence of calls it makes
to its `next` continuation (each optionally carrying a patch, each
observing the context the continuation returns), ending in a normal
return (`some` context or `void`) or a throw. -/
inductive ReqScript where
  | ret (r : Option RequestContext)
  | thrw
  | callNext (p : Option ReqPatch) (k : RequestContext → ReqScript)

/-- How a request handler finished. -/
inductive ReqOutcome where
  | threw
  | returned (r : Option RequestContext)

/-- Run one request handler against the chain's current context: each
`next(patch)` merges the patch into the mutable `currentContext` and
hands the handler the merged context.  Returns the final
`currentContext` together with the handler's outcome. -/
def runReqScript : ReqScript → RequestContext → RequestContext × ReqOutcome
  | .ret r, cur => (cur, .returned r)
  | .thrw, cur => (cur, .threw)
  | .callNext p k, cur =>
    let cur' := match p with
      | some patch => mergeReqPatch cur patch
      | none => cur
    runReqScript (k cur') cur'

/-- Interaction tree of a response handler. -/
inductive RespScript where
  | ret (r : Option TransferResp)
  | thrw
  | callNext (p : Option RespPatch) (k : TransferResp → RespScript)

/-- How a response handler finished. -/
inductive RespOutcome where
  | threw
  | returned (r : Option TransferResp)

/-- Run one response handler against the chain's current response. -/
def runRespScript : RespScript → TransferResp → TransferResp × RespOutcome
  | .ret r, cur => (cur, .returned r)
  | .thrw, cur => (cur, .threw)
  | .callNext p k, cur =>
    let cur' := match p with
      | some patch => mergeRespPatch cur patch
      | none => cur
    runRespScript (k cur') cur'

/-- WebSocket payloads. -/
inductive WSData where
  | text (s : Str)
  | blob (s : Str)
  | buffer (s : Str)
deriving DecidableEq

/-- Outcome of a `modifyWebSocketMessage` handler: throw, or return a
value (`none` models returning `undefined`). -/
inductive WSResult where
  | threw
  | ret (r : Option WSData)

/-- The `enabled` field of a `MiddlewareFunction`:
`boolean | (() => boolean) | undefined`. -/
inductive EnabledFlag where
  | undef
  | bool (b : Bool)
  | pred (f : Unit → Bool)

/-- `MiddlewareTransport.isMiddlewareEnabled`: a function field is
evaluated; otherwise enabled unless literally `false`. -/
def isMiddlewareEnabled : EnabledFlag → Bool
  | .undef => true
  | .bool b => b
  | .pred f => f ()

/-- A `MiddlewareFunction` (pipeline handler unit). -/
structure MWUnit where
  id : Str
  enabled : EnabledFlag := .undef
  onRequest : Option (RequestContext → ReqScript) := none
  onResponse : Option (ResponseContext → RespScript) := none
  modifyWebSocketMessage : Option (WSData → Bool → WSResult) := none

/-- The filter `middleware => isMiddlewareEnabled(middleware) && middleware.onRequest`. -/
def enabledRequestUnits (mws : List MWUnit) : List (RequestContext → ReqScript) :=
  mws.filterMap (fun u => if isMiddlewareEnabled u.enabled then u.onRequest else none)

/-- One iteration of the request-stage loop: run the handler; on a throw
the error is caught and logged, leaving `currentContext` as the handler's
continuation calls left it; a returned context replaces it; a `void`
return keeps it. -/
def stepRequestUnit (cur : RequestContext) (h : RequestContext → ReqScript) : RequestContext :=
  match runReqScript (h cur) cur with
  | (cur', .threw) => cur'
  | (cur', .returned none) => cur'
  | (_, .returned (some r)) => r

/-- `MiddlewareTransport.processRequestMiddleware`: fold the enabled
`onRequest` units, in registration order, over the initial context. -/
def processRequestMiddleware (mws : List MWUnit) (initialContext : RequestContext) : RequestContext :=
  (enabledRequestUnits mws).foldl stepRequestUnit initialContext

/-- The filter `middleware => isMiddlewareEnabled(middleware) && middleware.onResponse`. -/
def enabledResponseUnits (mws : List MWUnit) : List (ResponseContext → RespScript) :=
  mws.filterMap (fun u => if isMiddlewareEnabled u.enabled then u.onResponse else none)

/-- One iteration of the response-stage loop. -/
def stepResponseUnit (ctx : ResponseContext) (cur : TransferResp)
    (h : ResponseContext → RespScript) : TransferResp :=
  match runRespScript (h ctx) cur with
  | (cur', .threw) => cur'
  | (cur', .returned none) => cur'
  | (cur', .returned (some r)) => mergeRespResult cur' r

/-- `MiddlewareTransport.processResponseMiddleware`. -/
def processResponseMiddleware (mws : List MWUnit) (ctx : ResponseContext)
    (initialResponse : TransferResp) : TransferResp :=
  (enabledResponseUnits mws).foldl (stepResponseUnit ctx) initialResponse

/-- The filter for `modifyWebSocketMessage` units. -/
def enabledWSUnits (mws : List MWUnit) : List (WSData → Bool → WSResult) :=
  mws.filterMap (fun u => if isMiddlewareEnabled u.enabled then u.modifyWebSocketMessage else none)

/-- One iteration of `processWebSocketMessage`: a throw is caught,
keeping the payload; returning `undefined` keeps the payload. -/
def stepWSUnit (direction : Bool) (cur : WSData) (h : WSData → Bool → WSResult) : WSData :=
  match h cur direction with
  | .threw => cur
  | .ret none => cur
  | .ret (some d) => d

/-- `MiddlewareTransport.processWebSocketMessage` (`direction` as a
boolean: `true` = "send"). -/
def processWebSocketMessage (mws : List MWUnit) (data : WSData) (direction : Bool) : WSData :=
  (enabledWSUnits mws).foldl (stepWSUnit direction) data

/-- The rewritten response a plugin handler returns when the
delivery-time fragment produced a new body: same response with the new
string body and `content-length` set to the new body's length. -/
def rewriteResponse (response : TransferResp) (result : Str) : TransferResp :=
  { response with
    body := .str result
    headers := setHeader response.headers contentLengthKey (Nat.repr result.length).data }

/-- Body of the plugin-generated `onResponse` handler after its single
`next()` call handed it the current response: gate on the site scope (a
`SyntaxError` from the matcher escapes the handler as a throw) and the
content-type marker; tee and drain an open stream (redelivering the
untouched half when no rewrite happens), otherwise materialize the body;
run `executePlugin` only when the materialized body is truthy and
contains the `</head>` anchor; return the rewritten response when the
result differs from the materialized body. -/
def pluginRespond (p : PluginModel) (ctx : ResponseContext) (response : TransferResp) : RespScript :=
  match shouldPluginRunOnSite p.sites ctx.request.remote with
  | .error _ => .thrw
  | .ok shouldRun =>
    if shouldRun && contentTypeHasHtml response.headers then
      match response.body with
      | JsBody.stream st =>
        let streams := tee st
        let body := streamToString streams.1
        if !body.isEmpty && strIncludes body headAnchor then
          let result := executePlugin p body ctx.request.remote.href response.headers
          if !(result = body : Bool) then .ret (some (rewriteResponse response result))
          else .ret (some { response with body := .stream streams.2 })
        else .ret (some { response with body := .stream streams.2 })
      | b =>
        match bodyToString b with
        | some body =>
          if !body.isEmpty && strIncludes body headAnchor then
            let result := executePlugin p body ctx.request.remote.href response.headers
            if !(result = body : Bool) then .ret (some (rewriteResponse response result))
            else .ret (some response)
          else .ret (some response)
        | none => .ret (some response)
    else .ret (some response)

/-- The `onResponse` closure `addPlugin` builds: call `next()` first,
then act on the response it returns. -/
def pluginOnResponse (p : PluginModel) (ctx : ResponseContext) : RespScript :=
  .callNext none (fun response => pluginRespond p ctx response)

/-- The handler unit `addPlugin` registers for a plugin: id = plugin
name, `enabled` left undefined (hence enabled), only an `onResponse`
capability. -/
def mkPluginUnit (p : PluginModel) : MWUnit :=
  { id := p.name, onResponse := some (pluginOnResponse p) }

/-- `MiddlewareTransport.request`: build the request context, run the
request stage, forward the processed fields to the underlying transport
(modelled as a function from contexts to responses), then run the
response stage over the transport's response. -/
def refluxRequest (inner : RequestContext → TransferResp) (mws : List MWUnit)
    (remote : URLm) (method : Str) (body : JsBody) (headers : Headers)
    (signal : Option Nat) : TransferResp :=
  let requestContext : RequestContext :=
    { remote := remote, method := method, body := body, headers := headers, signal := signal }
  let processedRequest := processRequestMiddleware mws requestContext
  let response := inner processedRequest
  processResponseMiddleware mws { request := processedRequest } response

/-- Spec-side definition for the refinement claim: the facade as a pure
identity wrapper that forwards the call to the underlying transport
unchanged and returns its response unchanged. -/
def identityWrapperRequest (inner : RequestContext → TransferResp)
    (remote : URLm) (method : Str) (body : JsBody) (headers : Headers)
    (signal : Option Nat) : TransferResp :=
  inner { remote := remote, method := method, body := body, headers := headers, signal := signal }

/-- `"reflux-middleware"`, the control-channel protocol marker. -/
def refluxHeader : Str := ("reflux-middleware").data

/-- `"1.0.0"`, the transport's protocol version. -/
def refluxVersion : Str := ("1.0.0").data

/-- The `type` tag of a control-channel message. -/
inductive CtrlType where
  | addMiddleware
  | removeMiddleware
  | setMiddlewareEnabled
  | listMiddleware
  | addPlugin
  | removePlugin
  | listPlugins
  | response
deriving DecidableEq

/-- A `MessagePortMessage` as the control port receives it; optional
fields model absent properties. -/
structure CtrlMessage where
  reflux : Str
  version : Option Str := none
  type : CtrlType
  id : Option Str := none
  mw : Option MWUnit := none
  plugin : Option PluginModel := none
  fn : Option Str := none
  enabled : Option Bool := none
  messageId : Option Str := none

/-- The mutable transport state the control port manipulates: the
middleware map and the plugin map (insertion-ordered). -/
structure CtrlState where
  middleware : List (Str × MWUnit) := []
  plugins : List (Str × PluginModel) := []

/-- The `data` payload of a posted `response` message. -/
inductive RespData where
  | success
  | failure (msg : Str)
  | mwList (l : List (Str × Bool))
  | pluginList (l : List (Str × List Str × Bool))
deriving DecidableEq

/-- A message posted back on the control port by `sendResponse`. -/
structure PostedMessage where
  reflux : Str
  version : Str
  type : CtrlType
  messageId : Option Str
  data : RespData
deriving DecidableEq

/-- `MiddlewareTransport.sendResponse`: one `response` message echoing
the request's correlation id. -/
def sendResponse (messageId : Option Str) (data : RespData) : PostedMessage :=
  { reflux := refluxHeader, version := refluxVersion, type := .response
    messageId := messageId, data := data }

/-- JS truthiness of an optional string property (`message.id &&
message.fn` style guards): present and nonempty. -/
def optStrTruthy : Option Str → Bool
  | some s => !s.isEmpty
  | none => false

/-- Leading decimal value of a version string's first dot-segment
(model of `version.split('.').map(Number)[0]` for numeric segments;
a non-numeric or empty segment gives `none`, as `Number` gives `NaN`,
which compares unequal to everything). -/
def majorOf (v : Str) : Option Nat :=
  match (v.splitOn '.').head? with
  | some seg =>
    if seg.isEmpty || !seg.all Char.isDigit then none
    else some (seg.foldl (fun n c => n * 10 + (c.toNat - '0'.toNat)) 0)
  | none => none

/-- `MiddlewareTransport.isVersionCompatible`: equal major versions. -/
def isVersionCompatible (version : Str) : Bool :=
  match majorOf version, majorOf refluxVersion with
  | some a, some b => a = b
  | _, _ => false

/-- The state update of the `addPlugin` method: record the plugin and
register its generated handler unit under the plugin's name. -/
def addPluginState (st : CtrlState) (p : PluginModel) : CtrlState :=
  { middleware := assocSet st.middleware p.name (mkPluginUnit p)
    plugins := assocSet st.plugins p.name p }

/-- The state update of the `removePlugin` method. -/
def removePluginState (st : CtrlState) (name : Str) : CtrlState :=
  { middleware := assocDelete st.middleware name
    plugins := assocDelete st.plugins name }

/-- The `listMiddleware` payload. -/
def listMiddlewareData (st : CtrlState) : RespData :=
  .mwList (st.middleware.map (fun kv => (kv.1, isMiddlewareEnabled kv.2.enabled)))

/-- The `listPlugins` payload: each plugin with its sites and whether its
generated unit is currently registered and enabled. -/
def listPluginsData (st : CtrlState) : RespData :=
  .pluginList (st.plugins.map (fun kv =>
    (kv.1, kv.2.sites,
      match assocGet st.middleware kv.1 with
      | some u => isMiddlewareEnabled u.enabled
      | none => false)))

/-- `"eval threw"` placeholder carried by a caught-error response (the
source sends `error.message`). -/
def evalErrorMsg : Str := ("eval threw").data

/-- The control-port `onmessage` handler (`setupControlPort`).  Returns
the new state, the list of messages posted back, and whether a version
warning was logged.  `evalMW` models `eval` of a middleware source
string (`none` = the evaluation threw, caught by the surrounding
`try`). -/
def handleControlMessage (evalMW : Str → Option MWUnit) (st : CtrlState)
    (m : CtrlMessage) : CtrlState × List PostedMessage × Bool :=
  if !(m.reflux = refluxHeader : Bool) then (st, [], false)
  else
    let warn := match m.version with
      | some v => !isVersionCompatible v
      | none => false
    match m.type with
    | .addMiddleware =>
      match m.mw with
      | some u =>
        ({ st with middleware := assocSet st.middleware u.id u },
          [sendResponse m.messageId .success], warn)
      | none =>
        if optStrTruthy m.id && optStrTruthy m.fn then
          match evalMW (m.fn.getD []) with
          | some u =>
            ({ st with middleware := assocSet st.middleware (m.id.getD []) u },
              [sendResponse m.messageId .success], warn)
          | none => (st, [sendResponse m.messageId (.failure evalErrorMsg)], warn)
        else (st, [sendResponse m.messageId .success], warn)
    | .removeMiddleware =>
      if optStrTruthy m.id then
        ({ st with middleware := assocDelete st.middleware (m.id.getD []) },
          [sendResponse m.messageId .success], warn)
      else (st, [], warn)
    | .setMiddlewareEnabled =>
      if optStrTruthy m.id && assocHas st.middleware (m.id.getD []) then
        let flag : EnabledFlag := match m.enabled with
          | some b => .bool b
          | none => .undef
        ({ st with middleware := st.middleware.map (fun kv =>
            if kv.1 = m.id.getD [] then (kv.1, { kv.2 with enabled := flag }) else kv) },
          [sendResponse m.messageId .success], warn)
      else (st, [], warn)
    | .listMiddleware => (st, [sendResponse m.messageId (listMiddlewareData st)], warn)
    | .addPlugin =>
      match m.plugin with
      | some p => (addPluginState st p, [sendResponse m.messageId .success], warn)
      | none => (st, [], warn)
    | .removePlugin =>
      if optStrTruthy m.id then
        (removePluginState st (m.id.getD []), [sendResponse m.messageId .success], warn)
      else (st, [], warn)
    | .listPlugins => (st, [sendResponse m.messageId (listPluginsData st)], warn)
    | .response => (st, [], warn)

/-- Spec-side characterization of when the control port answers a typed
request: the conditions under which the switch reaches a `sendResponse`
call. -/
def respondsOnce (st : CtrlState) (m : CtrlMessage) : Bool :=
  match m.type with
  | .addMiddleware => true
  | .removeMiddleware => optStrTruthy m.id
  | .setMiddlewareEnabled => optStrTruthy m.id && assocHas st.middleware (m.id.getD [])
  | .listMiddleware => true
  | .addPlugin => m.plugin.isSome
  | .removePlugin => optStrTruthy m.id
  | .listPlugins => true
  | .response => false

/-! ### Concrete fixtures used by counterexamples and witnesses -/

/-- A sample target URL. -/
def baseUrl : URLm := { hostname := ("example.com").data, href := ("https://example.com/").data }

/-- A sample request context. -/
def baseCtx : RequestContext :=
  { remote := baseUrl, method := ("GET").data, body := .null, headers := [], signal := none }

/-- The response context the pipeline passes to response handlers. -/
def ctxR : ResponseContext := { request := baseCtx }

/-- `"OK"`. -/
def okStr : Str := ("OK").data

/-- A request unit whose handler never calls its continuation and
returns `void`. -/
def unitNoNext : MWUnit :=
  { id := ("a").data, onRequest := some (fun _ => .ret none) }

/-- `"B"`. -/
def methodB : Str := ("B").data

/-- A request unit whose handler returns the context with its method set
to `"B"`. -/
def unitSetsB : MWUnit :=
  { id := ("b").data
    onRequest := some (fun ctx => .ret (some { ctx with method := methodB })) }

/-- `"EVIL"`. -/
def evilMethod : Str := ("EVIL").data

/-- A request unit that patches the method through its continuation and
then throws. -/
def evilReqUnit : MWUnit :=
  { id := ("evil").data
    onRequest := some (fun _ =>
      .callNext (some { method := some evilMethod }) (fun _ => .thrw)) }

/-- The context `evilReqUnit`'s continuation call produces. -/
def evilCtx : RequestContext := { baseCtx with method := evilMethod }

/-- A response unit that patches the status through its continuation and
then throws. -/
def evilRespUnit : MWUnit :=
  { id := ("evilr").data
    onResponse := some (fun _ =>
      .callNext (some { status := some 999 }) (fun _ => .thrw)) }

/-- A WebSocket unit whose handler always throws. -/
def throwWSUnit : MWUnit :=
  { id := ("ws").data, modifyWebSocketMessage := some (fun _ _ => .threw) }

/-- A sample response. -/
def baseResp : TransferResp :=
  { body := .null, headers := [], status := 200, statusText := okStr }

/-- An HTML page that contains the `</head>` anchor. -/
def bodyHtml : Str := ("<html><head><title>Hi</title></head></html>").data

/-- An HTML page with no `</head>` anchor. -/
def noHeadBody : Str := ("<html><body>hi</body></html>").data

/-- An HTML response carrying `bodyHtml` as a string body. -/
def respHtml : TransferResp :=
  { body := .str bodyHtml, headers := [(contentTypeKey, htmlMarker)]
    status := 200, statusText := okStr }

/-- An HTML response carrying `noHeadBody` as a string body. -/
def respNoHead : TransferResp :=
  { body := .str noHeadBody, headers := [(contentTypeKey, htmlMarker)]
    status := 200, statusText := okStr }

/-- `"X"`. -/
def xStr : Str := ("X").data

/-- A plugin whose delivery-time fragment always returns `"X"`. -/
def pRetX : PluginModel :=
  { name := ("t").data, sites := [starStr], browserCode := none
    hasServerCode := true, run := fun _ _ _ => .retString xStr }

/-- A plugin whose delivery-time fragment always returns the empty
string. -/
def pRetEmpty : PluginModel :=
  { name := ("e").data, sites := [starStr], browserCode := none
    hasServerCode := true, run := fun _ _ _ => .retString [] }

/-- A content-execution region for the injection fixtures. -/
def jsCode : Str := ("console.log(1);").data

/-- A plugin with a content-execution region whose delivery-time
fragment always throws. -/
def pInjectThrow : PluginModel :=
  { name := ("i").data, sites := [starStr], browserCode := some jsCode
    hasServerCode := true, run := fun _ _ _ => .threw }

/-- A two-chunk stream holding an HTML page with no `</head>` anchor. -/
def stEx : JsStream := ⟨[("<html><head>").data, ("</body></html>").data]⟩

/-- An HTML response whose body is the open stream `stEx`. -/
def respStream : TransferResp :=
  { body := .stream stEx, headers := [(contentTypeKey, htmlMarker)]
    status := 200, statusText := okStr }

/-! ### Helper lemmas -/

/-- Merging a handler's returned response into an identical current
response changes nothing: every `result.field || current.field` falls
back to the same value. -/
theorem mergeRespResult_self (r : TransferResp) : mergeRespResult r r = r := by
  cases r
  simp [mergeRespResult]

/-- One response-stage step when the handler's script immediately
returns a response value. -/
theorem stepResponseUnit_plugin_ret (p : PluginModel) (ctx : ResponseContext)
    (cur r : TransferResp) (h : pluginRespond p ctx cur = .ret (some r)) :
    stepResponseUnit ctx cur (pluginOnResponse p) = mergeRespResult cur r := by
  unfold stepResponseUnit pluginOnResponse
  simp only [runRespScript]
  rw [h]
  rfl

/-- One response-stage step when the handler's script throws after its
`next()` call: the caught error leaves the current response as the
`next` call left it. -/
theorem stepResponseUnit_plugin_thrw (p : PluginModel) (ctx : ResponseContext)
    (cur : TransferResp) (h : pluginRespond p ctx cur = .thrw) :
    stepResponseUnit ctx cur (pluginOnResponse p) = cur := by
  unfold stepResponseUnit pluginOnResponse
  simp only [runRespScript]
  rw [h]
  rfl

/-- A plugin handler facing a response without the HTML content-type
marker either throws inside the site matcher or returns the response
unchanged. -/
theorem pluginRespond_nohtml (p : PluginModel) (ctx : ResponseContext)
    (resp : TransferResp) (hb : contentTypeHasHtml resp.headers = false) :
    pluginRespond p ctx resp = .thrw ∨ pluginRespond p ctx resp = .ret (some resp) := by
  unfold pluginRespond
  cases hsite : shouldPluginRunOnSite p.sites ctx.request.remote with
  | error e => exact Or.inl rfl
  | ok b => simp [hb]

/-- A plugin handler always leaves a non-HTML response untouched. -/
theorem stepResponseUnit_plugin_nohtml (p : PluginModel) (ctx : ResponseContext)
    (resp : TransferResp) (hb : contentTypeHasHtml resp.headers = false) :
    stepResponseUnit ctx resp (pluginOnResponse p) = resp := by
  rcases pluginRespond_nohtml p ctx resp hb with h | h
  · exact stepResponseUnit_plugin_thrw p ctx resp h
  · rw [stepResponseUnit_plugin_ret p ctx resp resp h, mergeRespResult_self]

/-- Every handler in the enabled-response filter comes from some unit's
`onResponse` field. -/
theorem enabledResponseUnits_mem (mws : List MWUnit) (h : ResponseContext → RespScript)
    (hm : h ∈ enabledResponseUnits mws) : ∃ u ∈ mws, u.onResponse = some h := by
  unfold enabledResponseUnits at hm
  rcases List.mem_filterMap.mp hm with ⟨u, hu, heq⟩
  refine ⟨u, hu, ?_⟩
  by_cases he : isMiddlewareEnabled u.enabled
  · simpa [he] using heq
  · simp [he] at heq

/-! ### Claims -/

/-- Claim C1 counterexample.  The claim asserts that a faulting unit's
partial mutations never reach the next unit or the delivered result.
Two concrete refutations: (a) a request unit that patches the method via
its continuation and then throws — the delivered context keeps the
patch; (b) a plugin whose content-execution injection succeeds and whose
delivery-time fragment then throws — the injected body is still
delivered. -/
theorem C1_counterexample :
    processRequestMiddleware [evilReqUnit] baseCtx ≠ baseCtx ∧
    (processResponseMiddleware [mkPluginUnit pInjectThrow] ctxR respHtml).body ≠ respHtml.body := by
  constructor <;> decide

/-- Claim C1, amended: a fault in a unit is caught and the pipeline
continues, but with the context/response exactly as the faulting unit's
continuation calls left it (partial patches applied through the
continuation before the throw are retained, not rolled back); only the
unit's would-be return value is lost.  For the message stage, which has
no continuation, the payload passed on is the pre-unit payload. -/
theorem C1_amended :
    (∀ (u : MWUnit) (h : RequestContext → ReqScript) (vs : List MWUnit)
        (ctx cur' : RequestContext),
      u.onRequest = some h → isMiddlewareEnabled u.enabled = true →
      runReqScript (h ctx) ctx = (cur', .threw) →
      processRequestMiddleware (u :: vs) ctx = processRequestMiddleware vs cur') ∧
    (∀ (u : MWUnit) (h : ResponseContext → RespScript) (vs : List MWUnit)
        (ctx : ResponseContext) (resp cur' : TransferResp),
      u.onResponse = some h → isMiddlewareEnabled u.enabled = true →
      runRespScript (h ctx) resp = (cur', .threw) →
      processResponseMiddleware (u :: vs) ctx resp = processResponseMiddleware vs ctx cur') ∧
    (∀ (u : MWUnit) (h : WSData → Bool → WSResult) (vs : List MWUnit)
        (d : WSData) (dir : Bool),
      u.modifyWebSocketMessage = some h → isMiddlewareEnabled u.enabled = true →
      h d dir = .threw →
      processWebSocketMessage (u :: vs) d dir = processWebSocketMessage vs d dir) := by
  refine ⟨?_, ?_, ?_⟩
  · intro u h vs ctx cur' hreq hen hrun
    unfold processRequestMiddleware enabledRequestUnits
    simp only [List.filterMap_cons, hen, if_true, hreq, List.foldl_cons]
    unfold stepRequestUnit
    rw [hrun]
  · intro u h vs ctx resp cur' hresp hen hrun
    unfold processResponseMiddleware enabledResponseUnits
    simp only [List.filterMap_cons, hen, if_true, hresp, List.foldl_cons]
    unfold stepResponseUnit
    rw [hrun]
  · intro u h vs d dir hws hen hrun
    unfold processWebSocketMessage enabledWSUnits
    simp only [List.filterMap_cons, hen, if_true, hws, List.foldl_cons]
    unfold stepWSUnit
    rw [hrun]

/-- Witness for `C1_amended` at concrete faulting units in each stage. -/
theorem C1_witness :
    processRequestMiddleware [evilReqUnit] baseCtx = processRequestMiddleware [] evilCtx ∧
    processResponseMiddleware [evilRespUnit] ctxR baseResp =
      processResponseMiddleware [] ctxR { baseResp with status := 999 } ∧
    processWebSocketMessage [throwWSUnit] (WSData.text xStr) true =
      processWebSocketMessage [] (WSData.text xStr) true :=
  ⟨C1_amended.1 evilReqUnit _ [] baseCtx evilCtx rfl rfl rfl,
   C1_amended.2.1 evilRespUnit _ [] ctxR baseResp { baseResp with status := 999 } rfl rfl rfl,
   C1_amended.2.2 throwWSUnit _ [] (WSData.text xStr) true rfl rfl rfl⟩

/-- Claim C2 counterexample.  The first unit returns without ever
invoking its continuation; the claim says the second unit is then not
invoked, so the delivered context would equal the initial one.  In fact
the second unit runs and its method rewrite is delivered. -/
theorem C2_counterexample :
    processRequestMiddleware [unitNoNext, unitSetsB] baseCtx = { baseCtx with method := methodB } ∧
    methodB ≠ baseCtx.method := by
  constructor <;> decide

/-- Claim C2, amended: the request stage never short-circuits — the
continuation does not gate later units.  Processing a concatenation of
unit lists equals processing the second list over the first list's
result, so every enabled `onRequest` unit runs in order regardless of
whether any unit invokes its continuation (and a unit that skips the
continuation merely applies no patch; it is not an error). -/
theorem C2_amended (us vs : List MWUnit) (ctx : RequestContext) :
    processRequestMiddleware (us ++ vs) ctx =
      processRequestMiddleware vs (processRequestMiddleware us ctx) := by
  unfold processRequestMiddleware enabledRequestUnits
  rw [List.filterMap_append, List.foldl_append]

/-- The single-plugin response pipeline is one step of the loop. -/
theorem processResponse_single (p : PluginModel) (ctx : ResponseContext)
    (resp : TransferResp) :
    processResponseMiddleware [mkPluginUnit p] ctx resp =
      stepResponseUnit ctx resp (pluginOnResponse p) := rfl

/-- A plugin handler whose site matcher raises throws. -/
theorem pluginRespond_site_error (p : PluginModel) (ctx : ResponseContext)
    (resp : TransferResp) (e : Unit)
    (hsite : shouldPluginRunOnSite p.sites ctx.request.remote = .error e) :
    pluginRespond p ctx resp = .thrw := by
  unfold pluginRespond
  rw [hsite]

/-- A plugin handler whose site/content-type gate is closed returns the
response unchanged. -/
theorem pluginRespond_gate_closed (p : PluginModel) (ctx : ResponseContext)
    (resp : TransferResp) (b : Bool)
    (hsite : shouldPluginRunOnSite p.sites ctx.request.remote = .ok b)
    (hgate : (b && contentTypeHasHtml resp.headers) = false) :
    pluginRespond p ctx resp = .ret (some resp) := by
  unfold pluginRespond
  rw [hsite]
  simp only [hgate, Bool.false_eq_true, if_false]

/-- Stream-body branch when the drained inspection copy lacks the
anchor (or decoded to the empty string): redeliver the teed half. -/
theorem pluginRespond_stream_skip (p : PluginModel) (ctx : ResponseContext)
    (resp : TransferResp) (st : JsStream) (b : Bool)
    (hbody : resp.body = .stream st)
    (hsite : shouldPluginRunOnSite p.sites ctx.request.remote = .ok b)
    (hgate : (b && contentTypeHasHtml resp.headers) = true)
    (hinc : (!(streamToString (tee st).1).isEmpty &&
      strIncludes (streamToString (tee st).1) headAnchor) = false) :
    pluginRespond p ctx resp = .ret (some { resp with body := .stream (tee st).2 }) := by
  unfold pluginRespond
  rw [hsite]
  simp only [hgate, if_true, hbody]
  simp only [hinc, Bool.false_eq_true, if_false]

/-- Stream-body branch when the anchor is present but the fragment left
the body unchanged: redeliver the teed half. -/
theorem pluginRespond_stream_unchanged (p : PluginModel) (ctx : ResponseContext)
    (resp : TransferResp) (st : JsStream) (b : Bool)
    (hbody : resp.body = .stream st)
    (hsite : shouldPluginRunOnSite p.sites ctx.request.remote = .ok b)
    (hgate : (b && contentTypeHasHtml resp.headers) = true)
    (hinc : (!(streamToString (tee st).1).isEmpty &&
      strIncludes (streamToString (tee st).1) headAnchor) = true)
    (hsame : executePlugin p (streamToString (tee st).1) ctx.request.remote.href resp.headers
      = streamToString (tee st).1) :
    pluginRespond p ctx resp = .ret (some { resp with body := .stream (tee st).2 }) := by
  unfold pluginRespond
  rw [hsite]
  simp only [hgate, if_true, hbody]
  simp only [hinc, if_true, hsame]
  simp

/-- Stream-body branch when the fragment rewrote the body. -/
theorem pluginRespond_stream_rewrite (p : PluginModel) (ctx : ResponseContext)
    (resp : TransferResp) (st : JsStream) (b : Bool)
    (hbody : resp.body = .stream st)
    (hsite : shouldPluginRunOnSite p.sites ctx.request.remote = .ok b)
    (hgate : (b && contentTypeHasHtml resp.headers) = true)
    (hinc : (!(streamToString (tee st).1).isEmpty &&
      strIncludes (streamToString (tee st).1) headAnchor) = true)
    (hdiff : ¬ executePlugin p (streamToString (tee st).1) ctx.request.remote.href resp.headers
      = streamToString (tee st).1) :
    pluginRespond p ctx resp = .ret (some (rewriteResponse resp
      (executePlugin p (streamToString (tee st).1) ctx.request.remote.href resp.headers))) := by
  unfold pluginRespond
  rw [hsite]
  simp only [hgate, if_true, hbody]
  simp only [hinc, if_true]
  simp [hdiff]

/-- String-body branch when the materialized body is absent, empty, or
lacks the anchor: return the response unchanged. -/
theorem pluginRespond_str_skip (p : PluginModel) (ctx : ResponseContext)
    (resp : TransferResp) (s : Str) (b : Bool)
    (hbody : resp.body = .str s)
    (hsite : shouldPluginRunOnSite p.sites ctx.request.remote = .ok b)
    (hinc : strIncludes s headAnchor = false) :
    pluginRespond p ctx resp = .ret (some resp) := by
  unfold pluginRespond
  rw [hsite]
  by_cases hgate : (b && contentTypeHasHtml resp.headers) = true
  · simp only [hgate, if_true, hbody]
    unfold bodyToString
    by_cases hs : s.isEmpty
    · simp [hs]
    · simp [hs, hinc]
  · simp only [eq_false_of_ne_true hgate, Bool.false_eq_true, if_false]

/-- String-body branch when the gate is open, the body contains the
anchor, and the fragment rewrote it. -/
theorem pluginRespond_str_rewrite (p : PluginModel) (ctx : ResponseContext)
    (resp : TransferResp) (s : Str)
    (hbody : resp.body = .str s)
    (hsite : shouldPluginRunOnSite p.sites ctx.request.remote = .ok true)
    (hhtml : contentTypeHasHtml resp.headers = true)
    (hinc : strIncludes s headAnchor = true)
    (hdiff : ¬ executePlugin p s ctx.request.remote.href resp.headers = s) :
    pluginRespond p ctx resp = .ret (some (rewriteResponse resp
      (executePlugin p s ctx.request.remote.href resp.headers))) := by
  have hs : ¬ s.isEmpty = true := by
    intro hs
    rw [List.isEmpty_iff] at hs
    subst hs
    simp [strIncludes, headAnchor] at hinc
  unfold pluginRespond
  rw [hsite]
  simp only [hhtml, Bool.and_self, if_true, hbody]
  unfold bodyToString
  simp only [Bool.not_eq_true] at hs
  simp [hs, hinc, hdiff]

/-- Claim C3: when a plugin handler faces an open-stream body, the
inspection copy produced by `tee` is drained (`streamToString`) while
the redelivery copy is handed onward untouched; whenever the delivered
body is still a stream (no rewrite occurred), it yields exactly the byte
sequence of the original body stream — draining the inspection half
never affects the redelivered bytes. -/
theorem C3_stream_redelivery (p : PluginModel) (ctx : ResponseContext)
    (resp : TransferResp) (st st' : JsStream)
    (hbody : resp.body = .stream st)
    (hdel : (processResponseMiddleware [mkPluginUnit p] ctx resp).body = .stream st') :
    streamBytes st' = streamBytes st := by
  rw [processResponse_single] at hdel
  cases hsite : shouldPluginRunOnSite p.sites ctx.request.remote with
  | error e =>
    rw [stepResponseUnit_plugin_thrw p ctx resp
      (pluginRespond_site_error p ctx resp e hsite), hbody] at hdel
    cases hdel
    rfl
  | ok b =>
    by_cases hgate : (b && contentTypeHasHtml resp.headers) = true
    · by_cases hinc : (!(streamToString (tee st).1).isEmpty &&
          strIncludes (streamToString (tee st).1) headAnchor) = true
      · by_cases hsame : executePlugin p (streamToString (tee st).1)
            ctx.request.remote.href resp.headers = streamToString (tee st).1
        · rw [stepResponseUnit_plugin_ret p ctx resp _
            (pluginRespond_stream_unchanged p ctx resp st b hbody hsite hgate hinc hsame)] at hdel
          unfold mergeRespResult at hdel
          simp only [JsBody.truthy, if_pos rfl] at hdel
          cases hdel
          rfl
        · rw [stepResponseUnit_plugin_ret p ctx resp _
            (pluginRespond_stream_rewrite p ctx resp st b hbody hsite hgate hinc hsame)] at hdel
          unfold mergeRespResult rewriteResponse at hdel
          simp only at hdel
          by_cases htr : (JsBody.str (executePlugin p (streamToString (tee st).1)
              ctx.request.remote.href resp.headers)).truthy = true
          · rw [if_pos htr] at hdel
            cases hdel
          · rw [if_neg (by simpa using htr), hbody] at hdel
            cases hdel
            rfl
      · rw [stepResponseUnit_plugin_ret p ctx resp _
          (pluginRespond_stream_skip p ctx resp st b hbody hsite hgate
            (eq_false_of_ne_true hinc))] at hdel
        unfold mergeRespResult at hdel
        simp only [JsBody.truthy, if_pos rfl] at hdel
        cases hdel
        rfl
    · rw [stepResponseUnit_plugin_ret p ctx resp resp
        (pluginRespond_gate_closed p ctx resp b hsite (eq_false_of_ne_true hgate)),
        mergeRespResult_self, hbody] at hdel
      cases hdel
      rfl

/-- Witness for `C3_stream_redelivery`: a concrete streamed HTML
response, drained for inspection and redelivered intact. -/
theorem C3_witness : streamBytes ⟨stEx.chunks⟩ = streamBytes stEx :=
  C3_stream_redelivery pRetX ctxR respStream stEx ⟨stEx.chunks⟩ rfl (by decide)

/-- Every handler list whose `onResponse` members are plugin-generated
leaves a non-HTML response untouched (fold form). -/
theorem foldl_plugin_nohtml (ctx : ResponseContext) (resp : TransferResp)
    (hs : List (ResponseContext → RespScript))
    (hall : ∀ h ∈ hs, ∃ p, h = pluginOnResponse p)
    (hb : contentTypeHasHtml resp.headers = false) :
    hs.foldl (stepResponseUnit ctx) resp = resp := by
  induction hs with
  | nil => rfl
  | cons h t ih =>
    obtain ⟨p, rfl⟩ := hall h (List.mem_cons_self h t)
    rw [List.foldl_cons, stepResponseUnit_plugin_nohtml p ctx resp hb]
    exact ih (fun h' hm => hall h' (List.mem_cons_of_mem _ hm))

/-- Claim C4: if the response's content-type header does not contain
`text/html`, plugin-generated units never rewrite it — the delivered
body (indeed the whole response) equals the one the underlying transport
produced, for every set of registered plugins. -/
theorem C4_nonhtml_passthrough (mws : List MWUnit) (ctx : ResponseContext)
    (resp : TransferResp)
    (hplug : ∀ u ∈ mws, ∀ h, u.onResponse = some h → ∃ p, h = pluginOnResponse p)
    (hb : contentTypeHasHtml resp.headers = false) :
    (processResponseMiddleware mws ctx resp).body = resp.body := by
  unfold processResponseMiddleware
  rw [foldl_plugin_nohtml ctx resp (enabledResponseUnits mws)
    (fun h hm => by
      rcases enabledResponseUnits_mem mws h hm with ⟨u, hu, heq⟩
      exact hplug u hu h heq) hb]

/-- Witness for `C4_nonhtml_passthrough`: a JSON response passes two
registered plugins untouched. -/
theorem C4_witness :
    (processResponseMiddleware [mkPluginUnit pRetX, mkPluginUnit pRetEmpty] ctxR
      { body := .str xStr, headers := [(contentTypeKey, ("application/json").data)]
        status := 200, statusText := okStr }).body = JsBody.str xStr :=
  C4_nonhtml_passthrough [mkPluginUnit pRetX, mkPluginUnit pRetEmpty] ctxR
    { body := .str xStr, headers := [(contentTypeKey, ("application/json").data)]
      status := 200, statusText := okStr }
    (by
      intro u hu h heq
      simp only [List.mem_cons, List.not_mem_nil, or_false] at hu
      rcases hu with rfl | rfl
      · exact ⟨pRetX, by cases heq; rfl⟩
      · exact ⟨pRetEmpty, by cases heq; rfl⟩)
    (by decide)

/-- Claim C5 counterexample.  The claim says that with the `</head>`
anchor absent the delivery-time fragment still runs and a string it
returns becomes the new body.  Concretely, a plugin whose fragment
always returns `"X"`, applied to an eligible HTML body with no anchor,
delivers the original body: the fragment is never executed. -/
theorem C5_counterexample :
    (processResponseMiddleware [mkPluginUnit pRetX] ctxR respNoHead).body
      = JsBody.str noHeadBody ∧
    JsBody.str noHeadBody ≠ JsBody.str xStr := by
  constructor <;> decide

/-- Claim C5, amended: when the materialized body lacks the `</head>`
anchor, the plugin handler skips execution entirely — no injection is
performed, the delivery-time fragment does not run (so a string it would
return never becomes the body), no fault escapes the stage, and the
response is delivered unchanged.  In particular a plugin consisting only
of a content-execution region leaves the body unchanged. -/
theorem C5_amended (p : PluginModel) (ctx : ResponseContext) (resp : TransferResp)
    (s : Str) (hbody : resp.body = .str s)
    (hinc : strIncludes s headAnchor = false) :
    processResponseMiddleware [mkPluginUnit p] ctx resp = resp := by
  rw [processResponse_single]
  cases hsite : shouldPluginRunOnSite p.sites ctx.request.remote with
  | error e =>
    exact stepResponseUnit_plugin_thrw p ctx resp (pluginRespond_site_error p ctx resp e hsite)
  | ok b =>
    rw [stepResponseUnit_plugin_ret p ctx resp resp
      (pluginRespond_str_skip p ctx resp s b hbody hsite hinc), mergeRespResult_self]

/-- Witness for `C5_amended`: a content-execution-only plugin applied to
an anchor-less HTML body delivers it unchanged. -/
theorem C5_witness :
    processResponseMiddleware [mkPluginUnit
      { name := ("c").data, sites := [starStr], browserCode := some jsCode
        hasServerCode := false, run := fun _ _ _ => .retOther }] ctxR respNoHead
      = respNoHead :=
  C5_amended _ ctxR respNoHead noHeadBody rfl (by decide)

/-- Rewriting one key of an association list by in-place map leaves
lookups of every other key unchanged. -/
theorem assocGet_map_set_ne {A : Type} (m : List (Str × A)) (k : Str) (v : A)
    (k' : Str) (h : ¬ k' = k) :
    assocGet (m.map (fun kv => if kv.1 = k then (k, v) else kv)) k' = assocGet m k' := by
  induction m with
  | nil => rfl
  | cons kv t ih =>
    simp only [List.map_cons]
    unfold assocGet
    by_cases hk : kv.1 = k
    · have hne : ¬ (k = k') := fun hh => h hh.symm
      have hne2 : ¬ (kv.1 = k') := by rw [hk]; exact hne
      rw [if_pos hk]
      simp only [if_neg hne, if_neg hne2]
      exact ih
    · rw [if_neg hk]
      by_cases h2 : kv.1 = k'
      · simp only [if_pos h2]
      · simp only [if_neg h2]
        exact ih

/-- Appending a fresh binding leaves lookups of other keys unchanged. -/
theorem assocGet_append_single_ne {A : Type} (m : List (Str × A)) (k : Str) (v : A)
    (k' : Str) (h : ¬ k' = k) :
    assocGet (m ++ [(k, v)]) k' = assocGet m k' := by
  induction m with
  | nil =>
    simp only [List.nil_append]
    unfold assocGet
    rw [if_neg (fun hh : k = k' => h hh.symm)]
    rfl
  | cons kv t ih =>
    simp only [List.cons_append]
    unfold assocGet
    by_cases h2 : kv.1 = k'
    · simp only [if_pos h2]
    · simp only [if_neg h2]
      exact ih

/-- Setting one header leaves every other header's lookup unchanged. -/
theorem getHeader_setHeader_ne (hs : Headers) (k v k' : Str) (h : ¬ k' = k) :
    getHeader (setHeader hs k v) k' = getHeader hs k' := by
  unfold setHeader assocSet getHeader
  by_cases hhas : assocHas hs k
  · rw [if_pos hhas]
    exact assocGet_map_set_ne hs k v k' h
  · rw [if_neg hhas]
    exact assocGet_append_single_ne hs k v k' h

/-- Claim C6 counterexample.  The delivery-time fragment returns the
empty string — a string different from the materialized body, so per the
claim the delivered body should be that empty string with content-length
updated.  In fact the falsy-field merge in the pipeline drops the empty
body and delivers the original body, while `content-length` is still set
to `"0"`. -/
theorem C6_counterexample :
    (processResponseMiddleware [mkPluginUnit pRetEmpty] ctxR respHtml).body
      = JsBody.str bodyHtml ∧
    getHeader (processResponseMiddleware [mkPluginUnit pRetEmpty] ctxR respHtml).headers
      contentLengthKey = some (("0").data) ∧
    bodyHtml ≠ [] := by
  refine ⟨?_, ?_, ?_⟩ <;> decide

/-- Claim C6, amended: when the delivery-time fragment returns a
*nonempty* string different from the materialized body, the delivered
response carries that string as its body with `content-length` set to
its length, and every other field — status, status text, and all headers
other than `content-length` — is unchanged.  (A rewrite to the empty
string is dropped by the falsy merge: the previous body is kept while
`content-length` is still set to `"0"`.) -/
theorem C6_amended (p : PluginModel) (ctx : ResponseContext) (resp : TransferResp)
    (s r : Str)
    (hbody : resp.body = .str s)
    (hinc : strIncludes s headAnchor = true)
    (hsite : shouldPluginRunOnSite p.sites ctx.request.remote = .ok true)
    (hhtml : contentTypeHasHtml resp.headers = true)
    (hexec : executePlugin p s ctx.request.remote.href resp.headers = r)
    (hdiff : r ≠ s) (hne : r ≠ []) :
    processResponseMiddleware [mkPluginUnit p] ctx resp =
      { resp with
          body := JsBody.str r,
          headers := setHeader resp.headers contentLengthKey (Nat.repr r.length).data } ∧
    ∀ k, ¬ k = contentLengthKey →
      getHeader (setHeader resp.headers contentLengthKey (Nat.repr r.length).data) k
        = getHeader resp.headers k := by
  constructor
  · have hdiff' : ¬ executePlugin p s ctx.request.remote.href resp.headers = s := by
      rw [hexec]; exact hdiff
    rw [processResponse_single]
    rw [stepResponseUnit_plugin_ret p ctx resp _
      (pluginRespond_str_rewrite p ctx resp s hbody hsite hhtml hinc hdiff')]
    rw [hexec]
    unfold mergeRespResult rewriteResponse
    cases resp
    simp [JsBody.truthy, List.isEmpty_iff, hne]
  · intro k hk
    exact getHeader_setHeader_ne resp.headers contentLengthKey _ k hk

/-- Witness for `C6_amended`: the `pRetX` plugin rewrites the sample
HTML page to `"X"`, with `content-length` updated and nothing else
changed. -/
theorem C6_witness :
    processResponseMiddleware [mkPluginUnit pRetX] ctxR respHtml =
      { respHtml with
          body := JsBody.str xStr,
          headers := setHeader respHtml.headers contentLengthKey
            (Nat.repr xStr.length).data } :=
  (C6_amended pRetX ctxR respHtml bodyHtml xStr rfl (by decide) rfl (by decide)
    rfl (by decide) (by decide)).1

/-- A paren-free string scans to balance exactly when the starting depth
is zero. -/
theorem parenScan_noparen (s : Str) (hs : ∀ c ∈ s, ¬ c = '(' ∧ ¬ c = ')') (d : Nat) :
    parenScan s d = decide (d = 0) := by
  induction s generalizing d with
  | nil => rfl
  | cons c t ih =>
    have hc := hs c (List.mem_cons_self c t)
    unfold parenScan
    rw [if_neg hc.1, if_neg hc.2]
    exact ih (fun c' hc' => hs c' (List.mem_cons_of_mem _ hc')) d

/-- A scope pattern free of regex metacharacters compiles after the
`*` → `.*` replacement. -/
theorem regexCompileOk_of_sitePlain (site : Str) (hp : sitePlain site = true) :
    regexCompileOk (starPattern site) = true := by
  unfold regexCompileOk
  rw [parenScan_noparen]
  · rfl
  · intro c hc
    rcases List.mem_flatMap.mp hc with ⟨a, ha, hmem⟩
    by_cases hstar : a = '*'
    · rw [if_pos hstar] at hmem
      simp only [List.mem_cons, List.not_mem_nil, or_false] at hmem
      rcases hmem with rfl | rfl
      · decide
      · decide
    · rw [if_neg hstar] at hmem
      simp only [List.mem_cons, List.not_mem_nil, or_false] at hmem
      subst hmem
      have := (List.all_eq_true.mp hp) c ha
      rcases Bool.or_eq_true_iff.mp this with h1 | h1
      · exact absurd (by simpa using h1) hstar
      · constructor
        · intro hcp
          rw [hcp] at h1
          simp [regexSpecials] at h1
        · intro hcp
          rw [hcp] at h1
          simp [regexSpecials] at h1

/-- When a wildcard pattern is metacharacter-free, `siteCheck` never
raises and computes `siteCheckOk`. -/
theorem siteCheck_eq_ok (u : URLm) (site : Str)
    (hp : site.contains '*' = true → sitePlain site = true) :
    siteCheck u site = .ok (siteCheckOk u site) := by
  unfold siteCheck siteCheckOk
  by_cases hc : site.contains '*' = true
  · simp only [hc, if_true]
    rw [regexCompileOk_of_sitePlain site (hp hc)]
    rfl
  · simp only [eq_false_of_ne_true hc, Bool.false_eq_true, if_false]

/-- `Array.prototype.some` over a never-raising predicate computes the
boolean disjunction. -/
theorem someJs_eq (f : Str → Except Unit Bool) (g : Str → Bool) (sites : List Str)
    (hfg : ∀ s ∈ sites, f s = .ok (g s)) :
    someJs f sites = .ok (sites.any g) := by
  induction sites with
  | nil => rfl
  | cons s t ih =>
    unfold someJs
    rw [hfg s (List.mem_cons_self s t)]
    cases hg : g s
    · simpa [hg] using ih (fun s' hs' => hfg s' (List.mem_cons_of_mem _ hs'))
    · simp [hg]

/-- Claim C7 counterexample.  The claim asserts the matcher is total for
*any* pattern strings.  The scope pattern `"(*"` contains the wildcard
together with an unmatched group opener, so `new RegExp("(.*", "i")`
raises a `SyntaxError` and the matcher faults instead of returning a
boolean. -/
theorem C7_counterexample :
    shouldPluginRunOnSite [("(*").data] baseUrl = Except.error () := rfl

/-- Claim C7, amended: restricted to scope-pattern lists whose
wildcard-containing patterns are free of other regex metacharacters, the
matcher is total — it returns a boolean (the wildcard-inclusion check or
the disjunction of the per-pattern tests) and returns `false` whenever
no pattern matches the target. -/
theorem C7_amended (sites : List Str) (u : URLm)
    (hplain : ∀ site ∈ sites, site.contains '*' = true → sitePlain site = true) :
    shouldPluginRunOnSite sites u
      = .ok (sites.contains starStr || sites.any (siteCheckOk u)) ∧
    ((sites.contains starStr = false ∧ ∀ site ∈ sites, siteCheckOk u site = false) →
      shouldPluginRunOnSite sites u = .ok false) := by
  have hmain : shouldPluginRunOnSite sites u
      = .ok (sites.contains starStr || sites.any (siteCheckOk u)) := by
    unfold shouldPluginRunOnSite
    by_cases hstar : sites.contains starStr = true
    · rw [if_pos hstar, hstar, Bool.true_or]
    · rw [if_neg hstar]
      rw [someJs_eq (siteCheck u) (siteCheckOk u) sites
        (fun s hs => siteCheck_eq_ok u s (hplain s hs))]
      rw [eq_false_of_ne_true hstar, Bool.false_or]
  refine ⟨hmain, ?_⟩
  rintro ⟨h1, h2⟩
  rw [hmain, h1]
  simp only [Bool.false_or]
  rw [List.any_eq_false.mpr (fun s hs => by rw [h2 s hs]; exact Bool.false_ne_true)]

/-- Witness for `C7_amended`: a metacharacter-free wildcard pattern list
that matches nothing returns `false` without raising. -/
theorem C7_witness :
    shouldPluginRunOnSite [("fr*ok").data] baseUrl = Except.ok false :=
  (C7_amended [("fr*ok").data] baseUrl (by decide)).2 ⟨by decide, by decide⟩

/-- Claim C8 counterexample.  The claim says a present, already-decoded
empty text body is returned as text; the materializer's JS falsy check
(`if (!body) return null`) reports it as absent instead. -/
theorem C8_counterexample : ¬ bodyToString (JsBody.str []) = some [] := by decide

/-- Claim C8, amended: the materializer returns `null` exactly when the
body is absent *or is the empty string* (both falsy in JS); every
nonempty text body is returned as-is.  A `null` result still never
reaches the downstream marker-inclusion checks (the handler skips
them). -/
theorem C8_amended :
    (∀ b : JsBody, bodyToString b = none ↔ b = JsBody.null ∨ b = JsBody.str []) ∧
    (∀ s : Str, s ≠ [] → bodyToString (JsBody.str s) = some s) := by
  constructor
  · intro b
    cases b with
    | null => simp [bodyToString]
    | str s =>
      by_cases hs : s.isEmpty
      · rw [List.isEmpty_iff] at hs
        subst hs
        simp [bodyToString]
      · constructor
        · intro h
          rw [bodyToString, if_neg hs] at h
          cases h
        · rintro (h | h)
          · cases h
          · injection h with h
            subst h
            exact absurd rfl hs
    | blob t => simp [bodyToString]
    | buffer t => simp [bodyToString]
    | stream st => simp [bodyToString]
  · intro s hs
    rw [bodyToString, if_neg (by simpa [List.isEmpty_iff] using hs)]

/-- Witness for `C8_amended`: a nonempty text body round-trips. -/
theorem C8_witness : bodyToString (JsBody.str (("abc").data)) = some (("abc").data) :=
  C8_amended.2 (("abc").data) (by decide)

/-- The empty control state. -/
def ctrlState0 : CtrlState := {}

/-- An `eval` model in which every middleware source string throws. -/
def mwEvalNone : Str → Option MWUnit := fun _ => none

/-- A `removeMiddleware` request carrying the protocol marker and a
correlation id but no `id` payload field. -/
def msgRemoveNoId : CtrlMessage :=
  { reflux := refluxHeader, version := some refluxVersion
    type := .removeMiddleware, messageId := some (("7").data) }

/-- A `listMiddleware` request with a mismatched major version. -/
def msgList : CtrlMessage :=
  { reflux := refluxHeader, version := some (("2.0.0").data)
    type := .listMiddleware, messageId := some (("9").data) }

/-- Claim C9 counterexample.  A `removeMiddleware` request that carries
the protocol marker and a correlation id but no `id` payload field
receives zero response messages, not exactly one. -/
theorem C9_counterexample :
    (handleControlMessage mwEvalNone ctrlState0 msgRemoveNoId).2.1 = [] := rfl

/-- Claim C9, amended: a marked typed request receives exactly one
response echoing its correlation id when its required payload fields are
present (`addMiddleware`, `listMiddleware`, `listPlugins`: always;
`removeMiddleware`/`removePlugin`: a truthy `id`; `addPlugin`: a
`plugin`; `setMiddlewareEnabled`: a truthy `id` naming a registered
unit), and zero responses otherwise; a mismatched major version logs a
warning and is not a hard failure — the request is still processed. -/
theorem C9_amended (evalMW : Str → Option MWUnit) (st : CtrlState) (m : CtrlMessage)
    (hreflux : m.reflux = refluxHeader) :
    ((handleControlMessage evalMW st m).2.1.length
        = if respondsOnce st m then 1 else 0) ∧
    (∀ r ∈ (handleControlMessage evalMW st m).2.1,
        r.messageId = m.messageId ∧ r.type = .response) ∧
    ((handleControlMessage evalMW st m).2.2
        = match m.version with
          | some v => !isVersionCompatible v
          | none => false) := by
  have hb : (!(m.reflux = refluxHeader : Bool)) = false := by simp [hreflux]
  unfold handleControlMessage respondsOnce
  rw [hb]
  simp only [Bool.false_eq_true, if_false]
  cases m.type <;> (repeat' split) <;> simp_all [sendResponse]

/-- Witness for `C9_amended`: a `listMiddleware` request with major
version `2` still gets exactly one response, with the warning flag
set. -/
theorem C9_witness :
    (handleControlMessage mwEvalNone ctrlState0 msgList).2.1.length = 1 ∧
    (handleControlMessage mwEvalNone ctrlState0 msgList).2.2 = true := by
  have h := C9_amended mwEvalNone ctrlState0 msgList rfl
  constructor
  · rw [h.1]
    decide
  · rw [h.2.2]
    decide

/-- Under an all-disabled unit list the enabled-request filter is
empty. -/
theorem enabledRequestUnits_nil (mws : List MWUnit)
    (hdis : ∀ u ∈ mws, isMiddlewareEnabled u.enabled = false) :
    enabledRequestUnits mws = [] := by
  unfold enabledRequestUnits
  induction mws with
  | nil => rfl
  | cons u t ih =>
    simp only [List.filterMap_cons, hdis u (List.mem_cons_self u t),
      Bool.false_eq_true, if_false]
    exact ih (fun u' h => hdis u' (List.mem_cons_of_mem _ h))

/-- Under an all-disabled unit list the enabled-response filter is
empty. -/
theorem enabledResponseUnits_nil (mws : List MWUnit)
    (hdis : ∀ u ∈ mws, isMiddlewareEnabled u.enabled = false) :
    enabledResponseUnits mws = [] := by
  unfold enabledResponseUnits
  induction mws with
  | nil => rfl
  | cons u t ih =>
    simp only [List.filterMap_cons, hdis u (List.mem_cons_self u t),
      Bool.false_eq_true, if_false]
    exact ih (fun u' h => hdis u' (List.mem_cons_of_mem _ h))

/-- Claim C10: with no enabled middleware (the empty collection, or
every unit disabled), the facade's request operation is an identity
wrapper: the context forwarded to the underlying transport is exactly
the caller's, and the caller receives the transport's response
field-for-field. -/
theorem C10_identity (inner : RequestContext → TransferResp) (mws : List MWUnit)
    (remote : URLm) (method : Str) (body : JsBody) (headers : Headers)
    (signal : Option Nat)
    (hdis : ∀ u ∈ mws, isMiddlewareEnabled u.enabled = false) :
    refluxRequest inner mws remote method body headers signal
      = identityWrapperRequest inner remote method body headers signal ∧
    processRequestMiddleware mws
      { remote := remote, method := method, body := body
        headers := headers, signal := signal }
      = { remote := remote, method := method, body := body
          headers := headers, signal := signal } := by
  have h1 := enabledRequestUnits_nil mws hdis
  have h2 := enabledResponseUnits_nil mws hdis
  constructor
  · unfold refluxRequest identityWrapperRequest processRequestMiddleware
      processResponseMiddleware
    rw [h1, h2]
    rfl
  · unfold processRequestMiddleware
    rw [h1]
    rfl

/-- A disabled request unit. -/
def disabledUnit : MWUnit :=
  { id := ("d").data, enabled := .bool false
    onRequest := some (fun _ => .ret none) }

/-- The inner transport used by the `C10_identity` witness. -/
def constInner : RequestContext → TransferResp := fun _ => baseResp

/-- Witness for `C10_identity`: one disabled unit, a constant underlying
transport. -/
theorem C10_witness :
    refluxRequest constInner [disabledUnit] baseUrl (("GET").data) JsBody.null [] none
      = identityWrapperRequest constInner baseUrl (("GET").data) JsBody.null [] none :=
  (C10_identity constInner [disabledUnit] baseUrl (("GET").data) JsBody.null [] none
    (by
      intro u hu
      simp only [List.mem_cons, List.not_mem_nil, or_false] at hu
      subst hu
      rfl)).1

end Reflux
